import Mathlib

/-!
Verification development for the DEM reconstruction and coregistration
pipeline (`professional_dem_app.py`, `test_corrected_single.py`).

The Python source is shallowly embedded: external tool runs (subprocess
calls and the filesystem globs that discover their outputs) are modelled
as an environment of oracles, and the orchestration logic of the Python
functions is translated directly.  User-visible effects that the claims
talk about (warnings, errors, tool invocations) are recorded as an event
trace.
-/

namespace DemApp

/-- Observable effects of the coregistration engine: an invocation of the
external alignment tool on a given input, a warning-level message
(`st.warning`), and an error-level message (`st.error`). -/
inductive Event where
  | toolRun (method input : String)
  | warned (source : String)
  | errored (source : String)
deriving DecidableEq, Repr

/-- Environment of oracles for the two alignment-tool invocations in
`run_cop30_coregistration` / `run_icesat2_coregistration`: the exit code of
the external script for a given input DEM, and the list of files the
subsequent output glob finds (in glob order). -/
structure CoregEnv where
  cop30Exit : String → Nat
  cop30Outputs : String → List String
  icesat2Exit : String → Nat
  icesat2Outputs : String → List String

/-- Embedding of `run_cop30_coregistration` (professional_dem_app.py lines
767-798): run the alignment script with method cop30; on exit code 0 return
the first glob match for the COP30 output DEM (None when the glob is empty);
on nonzero exit report an error (`st.error`) and return None. -/
def run_cop30_coregistration (env : CoregEnv) (dem_path : String) :
    Option String × List Event :=
  if env.cop30Exit dem_path = 0 then
    ((env.cop30Outputs dem_path).head?, [Event.toolRun "cop30" dem_path])
  else
    (none, [Event.toolRun "cop30" dem_path, Event.errored "cop30"])

/-- Embedding of `run_icesat2_coregistration` (professional_dem_app.py lines
800-831): run the alignment script with method icesat2; on exit code 0 return
the first glob match for the ICESat2 output DEM; on nonzero exit report a
warning (`st.warning`) and return None. -/
def run_icesat2_coregistration (env : CoregEnv) (dem_path : String) :
    Option String × List Event :=
  if env.icesat2Exit dem_path = 0 then
    ((env.icesat2Outputs dem_path).head?, [Event.toolRun "icesat2" dem_path])
  else
    (none, [Event.toolRun "icesat2" dem_path, Event.warned "icesat2"])

/-- Coregistration method selector of `process_coregistration`. -/
inductive CoregMethod where
  | cop30
  | icesat2
  | ensemble
deriving DecidableEq, Repr

/-- Final reporting step of `process_coregistration` (lines 618-621): when
the result is None an error "Coregistration failed" is displayed. -/
def report_coreg_result (outcome : Option String × List Event) :
    Option String × List Event :=
  (outcome.1,
    outcome.2 ++ if outcome.1.isSome then [] else [Event.errored "coregistration"])

/-- Embedding of the method dispatch of `process_coregistration`
(professional_dem_app.py lines 592-621).  In ensemble mode COP30 runs first;
only if it returns an artifact is ICESat-2 run, on that artifact; otherwise
the result is set to None. -/
def process_coregistration (env : CoregEnv) (method : CoregMethod)
    (dem_path : String) : Option String × List Event :=
  match method with
  | .cop30 => report_coreg_result (run_cop30_coregistration env dem_path)
  | .icesat2 => report_coreg_result (run_icesat2_coregistration env dem_path)
  | .ensemble =>
      let cop30_result := run_cop30_coregistration env dem_path
      match cop30_result.1 with
      | some art =>
          let ice := run_icesat2_coregistration env art
          report_coreg_result (ice.1, cop30_result.2 ++ ice.2)
      | none => report_coreg_result (none, cop30_result.2)

/-- Concrete environment in which the COP30 run succeeds (exit 0, one output
file found) and the ICESat-2 run fails with a nonzero exit code. -/
def envAokBfail : CoregEnv where
  cop30Exit := fun _ => 0
  cop30Outputs := fun _ => ["aligned_COP30_DEM.tif"]
  icesat2Exit := fun _ => 1
  icesat2Outputs := fun _ => []

theorem run_cop30_snd_cases (env : CoregEnv) (dem : String) :
    (run_cop30_coregistration env dem).2 = [Event.toolRun "cop30" dem] ∨
    (run_cop30_coregistration env dem).2 =
      [Event.toolRun "cop30" dem, Event.errored "cop30"] := by
  by_cases he : env.cop30Exit dem = 0 <;>
    simp [run_cop30_coregistration, he]

/-- C1: in an ensemble run where the COP30 invocation fails (returns no
artifact), the ICESat-2 tool is never invoked and the overall coregistration
result is None. -/
theorem c1_ensemble_cop30_failure_skips_icesat2 (env : CoregEnv) (dem : String)
    (h : (run_cop30_coregistration env dem).1 = none) :
    (process_coregistration env .ensemble dem).1 = none ∧
    ∀ s, Event.toolRun "icesat2" s ∉ (process_coregistration env .ensemble dem).2 := by
  have hev := run_cop30_snd_cases env dem
  constructor
  · simp [process_coregistration, h, report_coreg_result]
  · intro s hmem
    simp only [process_coregistration, h, report_coreg_result] at hmem
    rcases hev with hev | hev <;>
      simp [hev, List.mem_append, List.mem_cons] at hmem

/-- Concrete environment in which the COP30 run always fails. -/
def envAfail : CoregEnv where
  cop30Exit := fun _ => 1
  cop30Outputs := fun _ => []
  icesat2Exit := fun _ => 0
  icesat2Outputs := fun _ => ["aligned_ICESat2_DEM.tif"]

/-- Witness for C1 at a concrete environment where COP30 exits nonzero. -/
theorem c1_witness :
    (run_cop30_coregistration envAfail "input_dem.tif").1 = none ∧
    ((process_coregistration envAfail .ensemble "input_dem.tif").1 = none ∧
      ∀ s, Event.toolRun "icesat2" s ∉
        (process_coregistration envAfail .ensemble "input_dem.tif").2) :=
  ⟨by decide,
    c1_ensemble_cop30_failure_skips_icesat2 envAfail "input_dem.tif" (by decide)⟩

/-- C2 counterexample: in a run where COP30 succeeds (artifact
aligned_COP30_DEM.tif) and ICESat-2 then exits nonzero, the engine does not
return COP30's artifact: the overall result is None and a fatal
"coregistration failed" error is reported. -/
theorem c2_counterexample :
    (run_cop30_coregistration envAokBfail "input_dem.tif").1 =
      some "aligned_COP30_DEM.tif" ∧
    (run_icesat2_coregistration envAokBfail "aligned_COP30_DEM.tif").1 = none ∧
    (process_coregistration envAokBfail .ensemble "input_dem.tif").1 = none ∧
    Event.errored "coregistration" ∈
      (process_coregistration envAokBfail .ensemble "input_dem.tif").2 := by
  decide

/-- C2 (amended): in an ensemble run where COP30 succeeds and the ICESat-2
invocation exits nonzero, a warning is recorded for the ICESat-2 failure, but
the engine discards COP30's artifact: the overall result is None and a fatal
coregistration failure is reported. -/
theorem c2_amended_ensemble_icesat2_failure_discards_cop30
    (env : CoregEnv) (dem art : String)
    (ha : (run_cop30_coregistration env dem).1 = some art)
    (hb : env.icesat2Exit art ≠ 0) :
    (process_coregistration env .ensemble dem).1 = none ∧
    Event.warned "icesat2" ∈ (process_coregistration env .ensemble dem).2 ∧
    Event.errored "coregistration" ∈ (process_coregistration env .ensemble dem).2 := by
  simp [process_coregistration, ha, report_coreg_result,
    run_icesat2_coregistration, hb]

/-- Witness for the amended C2 at a concrete environment. -/
theorem c2_amended_witness :
    (run_cop30_coregistration envAokBfail "input_dem.tif").1 =
      some "aligned_COP30_DEM.tif" ∧
    envAokBfail.icesat2Exit "aligned_COP30_DEM.tif" ≠ 0 ∧
    ((process_coregistration envAokBfail .ensemble "input_dem.tif").1 = none ∧
      Event.warned "icesat2" ∈
        (process_coregistration envAokBfail .ensemble "input_dem.tif").2 ∧
      Event.errored "coregistration" ∈
        (process_coregistration envAokBfail .ensemble "input_dem.tif").2) :=
  ⟨by decide, by decide,
    c2_amended_ensemble_icesat2_failure_discards_cop30 envAokBfail
      "input_dem.tif" "aligned_COP30_DEM.tif" (by decide) (by decide)⟩

/-!
Merge model.  A raster tile is its coordinate reference, its pixel size and
a partial pixel grid: `data r c = none` where the tile has no valid value at
that mosaic cell (outside its extent, or nodata), `some v` where elevation
`v` contributes.
-/

/-- A geospatial raster as seen by `merge_dems`: coordinate reference string,
pixel size, and the elevation grid (None at nodata / uncovered cells). -/
structure Raster where
  crs : String
  res : Int
  data : Nat → Nat → Option Int

/-- Two rasters have compatible tile geometry when they share coordinate
reference and pixel size. -/
def geometryCompatible (a b : Raster) : Bool :=
  a.crs == b.crs && a.res == b.res

/-- Values contributed by the source tiles at one mosaic cell. -/
def tile_values (srcs : List Raster) (r c : Nat) : List Int :=
  srcs.filterMap (fun t => t.data r c)

/-- Maximum of the contributing values at a cell (None when no tile
contributes), the per-pixel rule of max compositing. -/
def maxOfContribs : List Int → Option Int
  | [] => none
  | v :: rest =>
      match maxOfContribs rest with
      | none => some v
      | some w => some (max v w)

/-- Modelled from the spec: `rasterio.merge.merge(src_files_to_mosaic,
method='max')`, the external raster-library mosaic call used at
professional_dem_app.py line 870.  Per its contract the sources must share
compatible resolution and coordinate reference (otherwise the call raises,
modelled as an error); on success every output cell holds the maximum of the
values contributed by the sources, the output grid carrying the first
source's reference and pixel size. -/
def rasterio_merge_max : List Raster → Except String Raster
  | [] => .error "no sources"
  | first :: rest =>
      if rest.all (geometryCompatible first) then
        .ok { crs := first.crs, res := first.res,
              data := fun r c => maxOfContribs (tile_values (first :: rest) r c) }
      else .error "incompatible tile geometry"

/-- Embedding of `merge_dems` (professional_dem_app.py lines 833-899).  The
returned pair is (result, raster source handles still open at return).  A
single input is a pass-through copy (no handles opened); an empty input set
fails with no valid tiles; for two or more inputs one handle per source is
opened, the library merge runs, and on success the handles are closed and
the output is written with the first source's metadata, while on an
exception from the merge the handler returns None without closing the
already-opened handles. -/
def merge_dems : List Raster → Option Raster × Nat
  | [] => (none, 0)
  | [single_dem] => (some single_dem, 0)
  | first :: second :: rest =>
      match rasterio_merge_max (first :: second :: rest) with
      | .error _ => (none, (first :: second :: rest).length)
      | .ok mosaic => (some { mosaic with crs := first.crs, res := first.res }, 0)

theorem maxOfContribs_eq_none (l : List Int) :
    maxOfContribs l = none ↔ l = [] := by
  cases l with
  | nil => simp [maxOfContribs]
  | cons v rest =>
      simp only [maxOfContribs]
      cases maxOfContribs rest <;> simp

theorem maxOfContribs_spec (l : List Int) (v : Int)
    (h : maxOfContribs l = some v) : v ∈ l ∧ ∀ w ∈ l, w ≤ v := by
  induction l generalizing v with
  | nil => simp [maxOfContribs] at h
  | cons a rest ih =>
      simp only [maxOfContribs] at h
      cases hr : maxOfContribs rest with
      | none =>
          rw [hr] at h
          have hrest : rest = [] := (maxOfContribs_eq_none rest).mp hr
          subst hrest
          simp at h
          subst h
          simp
      | some w =>
          rw [hr] at h
          have hw := ih w hr
          have hv : v = max a w := by simpa using h.symm
          subst hv
          constructor
          · rcases le_total a w with hle | hle
            · rw [max_eq_right hle]
              exact List.mem_cons_of_mem a hw.1
            · rw [max_eq_left hle]
              exact List.mem_cons_self a rest
          · intro u hu
            rcases List.mem_cons.mp hu with rfl | hu
            · exact le_max_left u w
            · exact le_trans (hw.2 u hu) (le_max_right a w)

/-- C3: merging two or more geometry-compatible raster tiles produces a
mosaic whose value at any cell covered by at least one input is the maximum
of the values the inputs contribute there: it is one of the contributed
values and an upper bound for all of them. -/
theorem c3_merge_pixel_is_max (first second : Raster) (rest : List Raster)
    (r c : Nat)
    (hcompat : (second :: rest).all (geometryCompatible first) = true)
    (hcov : tile_values (first :: second :: rest) r c ≠ []) :
    ∃ m v, (merge_dems (first :: second :: rest)).1 = some m ∧
      m.data r c = some v ∧
      v ∈ tile_values (first :: second :: rest) r c ∧
      ∀ w ∈ tile_values (first :: second :: rest) r c, w ≤ v := by
  obtain ⟨v, hv⟩ : ∃ v,
      maxOfContribs (tile_values (first :: second :: rest) r c) = some v := by
    cases hm : maxOfContribs (tile_values (first :: second :: rest) r c) with
    | none => exact absurd ((maxOfContribs_eq_none _).mp hm) hcov
    | some v => exact ⟨v, rfl⟩
  refine ⟨{ crs := first.crs, res := first.res,
            data := fun i j => maxOfContribs (tile_values (first :: second :: rest) i j) },
          v, ?_, hv, maxOfContribs_spec _ v hv⟩
  simp [merge_dems, rasterio_merge_max, hcompat]

/-- A flat tile: every cell of the mosaic grid carries the same elevation. -/
def flat_tile (v : Int) : Raster where
  crs := "EPSG:32643"
  res := 30
  data := fun _ _ => some v

/-- Witness for C3: the three-tile scenario with flat rasters of 100, 150
and 200 merges to the uniform maximum 200. -/
theorem c3_witness :
    ([flat_tile 150, flat_tile 200].all (geometryCompatible (flat_tile 100)) = true) ∧
    (tile_values [flat_tile 100, flat_tile 150, flat_tile 200] 0 0 ≠ []) ∧
    (∃ m v,
      (merge_dems [flat_tile 100, flat_tile 150, flat_tile 200]).1 = some m ∧
      m.data 0 0 = some v ∧
      v ∈ tile_values [flat_tile 100, flat_tile 150, flat_tile 200] 0 0 ∧
      ∀ w ∈ tile_values [flat_tile 100, flat_tile 150, flat_tile 200] 0 0, w ≤ v) ∧
    (merge_dems [flat_tile 100, flat_tile 150, flat_tile 200]).1.map
      (fun m => m.data 0 0) = some (some 200) :=
  ⟨by decide, by decide,
    c3_merge_pixel_is_max (flat_tile 100) (flat_tile 150) [flat_tile 200] 0 0
      (by decide) (by decide),
    by decide⟩

/-- C4: a merge request holding exactly one raster tile is a pass-through
copy: the output exists, its elevation values are identical to the input's
at every cell, and no compositing is performed (no source handles are ever
opened). -/
theorem c4_single_input_pass_through (single_dem : Raster) :
    ∃ m, (merge_dems [single_dem]).1 = some m ∧
      (∀ r c, m.data r c = single_dem.data r c) ∧
      (merge_dems [single_dem]).2 = 0 :=
  ⟨single_dem, rfl, fun _ _ => rfl, rfl⟩

/-- C8: for a multi-input merge, incompatible tile geometry among the inputs
makes the merge fail (no artifact), and with compatible geometry the merge
succeeds with an output inheriting the coordinate reference and pixel size
of the first input. -/
theorem c8_merge_geometry_gate (first second : Raster) (rest : List Raster) :
    ((second :: rest).all (geometryCompatible first) = false →
      (merge_dems (first :: second :: rest)).1 = none) ∧
    ((second :: rest).all (geometryCompatible first) = true →
      ∃ m, (merge_dems (first :: second :: rest)).1 = some m ∧
        m.crs = first.crs ∧ m.res = first.res) := by
  constructor
  · intro hbad
    simp [merge_dems, rasterio_merge_max, hbad]
  · intro hgood
    refine ⟨{ crs := first.crs, res := first.res,
              data := fun i j => maxOfContribs (tile_values (first :: second :: rest) i j) },
            ?_, rfl, rfl⟩
    simp [merge_dems, rasterio_merge_max, hgood]

/-- A tile in a different coordinate reference, incompatible with
`flat_tile` inputs. -/
def wgs84_tile (v : Int) : Raster where
  crs := "EPSG:4326"
  res := 30
  data := fun _ _ => some v

/-- Witness for C8: both branches at concrete inputs — a mixed-reference
pair fails, a compatible pair succeeds and inherits the first tile's
reference and pixel size. -/
theorem c8_witness :
    (([wgs84_tile 150].all (geometryCompatible (flat_tile 100)) = false) ∧
      (merge_dems [flat_tile 100, wgs84_tile 150]).1 = none) ∧
    (([flat_tile 150].all (geometryCompatible (flat_tile 100)) = true) ∧
      ∃ m, (merge_dems [flat_tile 100, flat_tile 150]).1 = some m ∧
        m.crs = (flat_tile 100).crs ∧ m.res = (flat_tile 100).res) :=
  ⟨⟨by decide,
      (c8_merge_geometry_gate (flat_tile 100) (wgs84_tile 150) []).1 (by decide)⟩,
    ⟨by decide,
      (c8_merge_geometry_gate (flat_tile 100) (flat_tile 150) []).2 (by decide)⟩⟩

/-- C9 counterexample: merging two tiles whose coordinate references differ
makes the library merge call raise; the exception handler of `merge_dems`
returns None without closing the two already-opened source handles, so the
operation returns with open handles. -/
theorem c9_counterexample :
    (merge_dems [flat_tile 100, wgs84_tile 150]).1 = none ∧
    (merge_dems [flat_tile 100, wgs84_tile 150]).2 = 2 ∧
    ¬ (merge_dems [flat_tile 100, wgs84_tile 150]).2 = 0 := by
  refine ⟨rfl, rfl, by decide⟩

/-- C9 (amended): in a multi-input merge the source handles are all closed
before return on the success path, but when the compositing call fails on
incompatible tile geometry every opened handle is still open at return. -/
theorem c9_amended_handles (first second : Raster) (rest : List Raster) :
    (merge_dems (first :: second :: rest)).2 =
      if (second :: rest).all (geometryCompatible first) then 0
      else (first :: second :: rest).length := by
  by_cases hc : (second :: rest).all (geometryCompatible first) = true <;>
    simp [merge_dems, rasterio_merge_max, hc]

/-!
Rasterization coordinate-reference selection, conversion output gates,
extraction input location and alignment command construction, from
`run_asp_processing` and `test_corrected_single.py`.
-/

/-- Embedding of the coordinate-system resolution in `run_asp_processing`
(professional_dem_app.py lines 689-695): the automatic option is mapped to
the fixed constant EPSG:32643 (UTM 43N), the explicit WGS84 option to
EPSG:4326, and anything else to the same fixed constant. -/
def run_asp_target_srs (coord_system : String) : String :=
  if coord_system = "Auto (Local UTM)" then "EPSG:32643"
  else if coord_system = "EPSG:4326 (WGS84)" then "EPSG:4326"
  else "EPSG:32643"

/-- Modelled from the spec: the location-derived projected reference the
automatic option is required to resolve, with the UTM zone computed from the
input's longitude (zone = (lon + 180) / 6 + 1, northern-hemisphere EPSG
32600 + zone). -/
def utm_zone_from_longitude (lon : Int) : Int := (lon + 180) / 6 + 1

/-- Modelled from the spec: northern-hemisphere UTM EPSG code for a
longitude. -/
def location_derived_epsg (lon : Int) : Int := 32600 + utm_zone_from_longitude lon

/-- C5 (code bug): the automatic coordinate-reference option resolves to the
hard-coded constant EPSG:32643, which is the location-derived reference only
for zone-43 longitudes (such as 77 E, Chandra basin); for an input at
longitude 100 W the location-derived reference is EPSG:32614, so the code's
constant cannot be the zone computed from longitude. -/
theorem c5_auto_srs_is_hardcoded :
    run_asp_target_srs "Auto (Local UTM)" = "EPSG:32643" ∧
    location_derived_epsg 77 = 32643 ∧
    location_derived_epsg (-100) = 32614 ∧
    (32614 : Int) ≠ 32643 := by
  refine ⟨rfl, by decide, by decide, by decide⟩

/-- Presence flags for the four expected conversion outputs: the nadir band
image (Band3N.tif), the backward band image (Band3B.tif) and their paired
camera metadata files (Band3N.xml, Band3B.xml). -/
structure ConversionOutputs where
  band3n_image : Bool
  band3b_image : Bool
  band3n_camera : Bool
  band3b_camera : Bool
deriving DecidableEq, Repr

/-- Embedding of the post-conversion validation in `run_asp_processing`
(professional_dem_app.py lines 712-718): after aster2asp exits 0 the stage
only checks that the Band3N and Band3B image globs are nonempty; the camera
metadata files are not checked. -/
def app_conversion_gate (o : ConversionOutputs) : Bool :=
  o.band3n_image && o.band3b_image

/-- Embedding of the corresponding validation in the repository's own test
(test_corrected_single.py lines 179-192): the stage proceeds only when the
two band images and the two camera metadata files are all present. -/
def test_conversion_gate (o : ConversionOutputs) : Bool :=
  o.band3n_image && o.band3b_image && o.band3n_camera && o.band3b_camera

/-- C6 (code bug): with the tool exiting 0 and only 3 of the 4 expected
outputs present (the backward camera metadata file missing), the app's
conversion gate passes, while the repository's own test requires all four
files and fails the same configuration. -/
theorem c6_app_gate_ignores_metadata :
    app_conversion_gate
      { band3n_image := true, band3b_image := true,
        band3n_camera := true, band3b_camera := false } = true ∧
    test_conversion_gate
      { band3n_image := true, band3b_image := true,
        band3n_camera := true, band3b_camera := false } = false := by
  decide

/-- An extracted archive tree: the file names that are direct children of
the extraction directory, and the files sitting one subdirectory level deep
as (subdirectory, file name) pairs. -/
structure ExtractedTree where
  root_files : List String
  sub_files : List (String × String)

/-- The expected-input pattern of the extraction stage (glob *.tif): the
file name ends with the .tif suffix. -/
def matches_tif (name : String) : Bool := ".tif".data.isSuffixOf name.data

/-- Embedding of the input location after extraction in `run_asp_processing`
(professional_dem_app.py line 677): glob over the extraction directory's
direct children only; nothing below a subdirectory is consulted. -/
def find_input_tifs (t : ExtractedTree) : List String :=
  t.root_files.filter matches_tif

/-- C7 counterexample: a root-level layout is located, but the identical
file one subdirectory deep is not, so the two layouts are not located
identically and the subdirectory layout yields a no-input-found failure
despite a matching file existing. -/
theorem c7_counterexample :
    find_input_tifs { root_files := ["scene_Band3N.tif"], sub_files := [] } =
      ["scene_Band3N.tif"] ∧
    find_input_tifs
      { root_files := [],
        sub_files := [("AST_L1A_sub", "scene_Band3N.tif")] } = [] ∧
    matches_tif "scene_Band3N.tif" = true := by
  refine ⟨rfl, rfl, by decide⟩

/-- C7 (amended): the extraction stage locates input files only among the
direct children of the extraction directory — the subdirectory contents
never influence the located inputs — and it reports no input found exactly
when no direct child matches the expected pattern. -/
theorem c7_amended_root_only (roots : List String)
    (subs₁ subs₂ : List (String × String)) :
    find_input_tifs { root_files := roots, sub_files := subs₁ } =
      find_input_tifs { root_files := roots, sub_files := subs₂ } ∧
    (find_input_tifs { root_files := roots, sub_files := subs₁ } = [] ↔
      ∀ f ∈ roots, matches_tif f = false) := by
  constructor
  · rfl
  · simp [find_input_tifs, List.filter_eq_nil_iff]

/-- Path of the external alignment script run by both coregistration
methods. -/
def coreg_script_path : String :=
  "/home/ashutokumar/Pinn_mass_balance/chandra_basin_coregistration_clean.py"

set_option linter.unusedVariables false in
/-- Embedding of the command list built by `run_cop30_coregistration`
(professional_dem_app.py lines 779-784): only the method, the input DEM and
the output directory are passed; the maximum displacement, the outlier
retention fraction and the elevation filter flag received by the function
never reach the command. -/
def cop30_cmd (dem_path output_dir : String) (max_disp : Nat)
    (outlier_keep : Rat) (elev_filter : Bool) : List String :=
  ["python", coreg_script_path, "--method", "cop30",
   "--dem-file", dem_path, "--output-dir", output_dir]

set_option linter.unusedVariables false in
/-- Embedding of the command list built by `run_icesat2_coregistration`
(professional_dem_app.py lines 812-817): again only method, input DEM and
output directory are passed. -/
def icesat2_cmd (dem_path output_dir : String) (max_disp : Nat)
    (outlier_keep : Rat) : List String :=
  ["python", coreg_script_path, "--method", "icesat2",
   "--dem-file", dem_path, "--output-dir", output_dir]

/-- C10 (code bug): the alignment-tool invocations are independent of the
caller-supplied tuning parameters — any two choices of maximum displacement,
outlier retention fraction and elevation filter flag produce the identical
command — and the concrete command holds nothing beyond method, input path
and output directory. -/
theorem c10_tuning_params_not_passed :
    (∀ (dem out : String) (m₁ m₂ : Nat) (k₁ k₂ : Rat) (e₁ e₂ : Bool),
      cop30_cmd dem out m₁ k₁ e₁ = cop30_cmd dem out m₂ k₂ e₂) ∧
    (∀ (dem out : String) (m₁ m₂ : Nat) (k₁ k₂ : Rat),
      icesat2_cmd dem out m₁ k₁ = icesat2_cmd dem out m₂ k₂) ∧
    cop30_cmd "input_dem.tif" "out" 40 (3 / 4) true =
      ["python", coreg_script_path, "--method", "cop30",
       "--dem-file", "input_dem.tif", "--output-dir", "out"] := by
  exact ⟨fun _ _ _ _ _ _ _ _ => rfl, fun _ _ _ _ _ _ => rfl, rfl⟩

end DemApp
